import Mathlib

/-!
Verification of the indusmind-backend credential lifecycle manager and
resilient query gateway, as a shallow embedding of the TypeScript source
(ThingsboardAuthService, ThingsboardTelemetryService, DeviceService and
the telemetry router) into Lean 4.
-/

/-! ## Shared data: telemetry samples and devices -/

/-- A telemetry sample: `{ts, value}` pair (value modelled as an integer). -/
structure Sample where
  ts : Int
  value : Int
deriving DecidableEq, Repr

/-- The parsed 200-body of a timeseries query: key → ordered samples. -/
def TsData := List (String × List Sample)
deriving DecidableEq, Repr

/-- A device record from the customer directory
(`deviceUUID`, `accessToken`, optional `name`). -/
structure Device where
  deviceUUID : String
  accessToken : String
  name : Option String
deriving DecidableEq, Repr

/-! ## Resilient query executor (`getTimeseriesWithRetry`)

The upstream environment is a list of per-attempt responses, consumed one
per HTTP attempt.  `validateStatus: () => true` means every status code is
returned to the classification chain rather than thrown. -/

/-- Upstream response to one timeseries HTTP attempt. -/
inductive TsResp where
  | http (status : Nat) (data : TsData) (msg : String)
  | transport (msg : String)
deriving DecidableEq, Repr

/-- Observable executor events, in the order the code performs them. -/
inductive ExecEvent where
  | getToken
  | attempt
  | delayMs (ms : Nat)
  | forceRefresh
deriving DecidableEq, Repr

/-- Terminal outcome of `getTimeseriesWithRetry`. -/
inductive ExecResult where
  | ok (data : TsData)
  | entityNotFound
  | badRequest (msg : String)
  | apiError (status : Nat)
  | transportErr (msg : String)
deriving DecidableEq, Repr

/-- `private readonly maxRetries = 3` -/
def maxRetries : Nat := 3

/-- `private readonly retryDelayMs = 1000` -/
def retryDelayMs : Nat := 1000

/-- `getTimeseriesWithRetry`: obtain a token, issue the attempt, then
classify: 200 → return body; 401 with `retryCount < maxRetries` → delay
1000 ms, force `refreshToken()`, recurse with `retryCount + 1`; 404 →
entity-not-found; 400 → bad-request with the upstream message; any other
status → API error.  Transport failures propagate without retry. -/
def getTimeseriesWithRetry : List TsResp → Nat → ExecResult × List ExecEvent
  | [], _ => (.transportErr "no response", [])
  | r :: rest, retryCount =>
    let pre : List ExecEvent := [.getToken, .attempt]
    match r with
    | .transport m => (.transportErr m, pre)
    | .http status data msg =>
      if status = 200 then (.ok data, pre)
      else if status = 401 ∧ retryCount < maxRetries then
        let next := getTimeseriesWithRetry rest (retryCount + 1)
        (next.1, pre ++ [.delayMs retryDelayMs, .forceRefresh] ++ next.2)
      else if status = 404 then (.entityNotFound, pre)
      else if status = 400 then (.badRequest msg, pre)
      else (.apiError status, pre)

/-- Public entry point `getTimeseries` starts the loop at retry count 0. -/
def getTimeseries (resps : List TsResp) : ExecResult × List ExecEvent :=
  getTimeseriesWithRetry resps 0

/-- Count events satisfying a predicate. -/
def countEvt (p : ExecEvent → Bool) (evts : List ExecEvent) : Nat :=
  (evts.filter p).length

/-- Number of forced `refreshToken()` calls in a trace. -/
def countRefresh : List ExecEvent → Nat :=
  countEvt (fun e => e = ExecEvent.forceRefresh)

/-- Number of token acquisitions (`getAuthenticatedClient`) in a trace. -/
def countGetToken : List ExecEvent → Nat :=
  countEvt (fun e => e = ExecEvent.getToken)

/-- Number of fixed 1000 ms backoff waits in a trace. -/
def countDelay1000 : List ExecEvent → Nat :=
  countEvt (fun e => e = ExecEvent.delayMs 1000)

/-- A single 401-driven retry cycle prepends token acquisition, the
attempt, the 1000 ms backoff and the forced refresh to the continuation's
trace. -/
theorem run_cons_401 (d : TsData) (m : String) (rest : List TsResp) (rc : Nat)
    (h : rc < maxRetries) :
    getTimeseriesWithRetry (TsResp.http 401 d m :: rest) rc
      = ((getTimeseriesWithRetry rest (rc + 1)).1,
         [ExecEvent.getToken, ExecEvent.attempt, ExecEvent.delayMs retryDelayMs,
          ExecEvent.forceRefresh] ++ (getTimeseriesWithRetry rest (rc + 1)).2) := by
  simp [getTimeseriesWithRetry, h]

/-- The executor performs at most `maxRetries - rc` further forced
refreshes when entered at retry count `rc`. -/
theorem countRefresh_le (resps : List TsResp) :
    ∀ rc, countRefresh (getTimeseriesWithRetry resps rc).2 ≤ maxRetries - rc := by
  induction resps with
  | nil =>
    intro rc
    simp [getTimeseriesWithRetry, countRefresh, countEvt]
  | cons r rest ih =>
    intro rc
    cases r with
    | transport m =>
      simp [getTimeseriesWithRetry, countRefresh, countEvt]
    | http s d m =>
      by_cases h200 : s = 200
      · simp [getTimeseriesWithRetry, h200, countRefresh, countEvt]
      · by_cases h401 : s = 401 ∧ rc < maxRetries
        · obtain ⟨hs, hrc⟩ := h401
          subst hs
          rw [run_cons_401 d m rest rc hrc]
          have hrec := ih (rc + 1)
          simp [countRefresh, countEvt, List.filter_append] at hrec ⊢
          omega
        · simp only [getTimeseriesWithRetry, h200, h401, if_false]
          split <;> (try split) <;> simp [countRefresh, countEvt]

/-- C1: a 401 on an attempt triggers the self-heal loop — one forced
`refreshToken()` per cycle together with the fixed 1000 ms backoff, then
the query is repeated from token acquisition.  A 200 on the retry returns
the parsed key→samples mapping with the intermediate 401 never surfaced
to the caller (exactly one refresh, one backoff, two token acquisitions);
a 401 on every attempt terminates with the 401 API error after exactly 3
forced refreshes (4 attempts), never 4 refreshes; and on any upstream
behaviour at most 3 forced refreshes occur for one logical query. -/
theorem C1_self_heal_retry_loop :
    (∀ (d1 : TsData) (m1 : String) (data : TsData) (m2 : String) (rest : List TsResp),
      getTimeseries (TsResp.http 401 d1 m1 :: TsResp.http 200 data m2 :: rest)
        = (ExecResult.ok data,
           [ExecEvent.getToken, ExecEvent.attempt, ExecEvent.delayMs 1000,
            ExecEvent.forceRefresh, ExecEvent.getToken, ExecEvent.attempt]))
  ∧ (∀ (d0 d1 d2 d3 : TsData) (m0 m1 m2 m3 : String),
      (getTimeseries [TsResp.http 401 d0 m0, TsResp.http 401 d1 m1,
                      TsResp.http 401 d2 m2, TsResp.http 401 d3 m3]).1
        = ExecResult.apiError 401
      ∧ countRefresh (getTimeseries [TsResp.http 401 d0 m0, TsResp.http 401 d1 m1,
                      TsResp.http 401 d2 m2, TsResp.http 401 d3 m3]).2 = 3
      ∧ countGetToken (getTimeseries [TsResp.http 401 d0 m0, TsResp.http 401 d1 m1,
                      TsResp.http 401 d2 m2, TsResp.http 401 d3 m3]).2 = 4
      ∧ countDelay1000 (getTimeseries [TsResp.http 401 d0 m0, TsResp.http 401 d1 m1,
                      TsResp.http 401 d2 m2, TsResp.http 401 d3 m3]).2 = 3)
  ∧ (∀ resps : List TsResp, countRefresh (getTimeseries resps).2 ≤ 3) := by
  refine ⟨?_, ?_, ?_⟩
  · intro d1 m1 data m2 rest
    simp [getTimeseries, getTimeseriesWithRetry, maxRetries, retryDelayMs]
  · intro d0 d1 d2 d3 m0 m1 m2 m3
    refine ⟨?_, ?_, ?_, ?_⟩ <;>
      simp [getTimeseries, getTimeseriesWithRetry, maxRetries, retryDelayMs,
        countRefresh, countGetToken, countDelay1000, countEvt]
  · intro resps
    exact countRefresh_le resps 0

/-! ## Credential lifecycle manager (`ThingsboardAuthService`)

State: `tokenPayload : {token, refreshToken, expiresAt} | null` and the
auto-refresh timer handle.  The upstream login/refresh endpoints and the
JWT-expiry decoding (`getTokenExpiration`, § below) enter as an explicit
context; `Date.now()` is frozen for the synchronous segment of a call. -/

/-- `ThingsboardTokenPayload`. -/
structure TokenPayload where
  token : String
  refreshToken : String
  expiresAt : Int
deriving DecidableEq, Repr

/-- The mutable fields of `ThingsboardAuthService`. -/
structure AuthState where
  tokenPayload : Option TokenPayload
  tokenRefreshInterval : Option Int
deriving DecidableEq, Repr

/-- Outcome of one upstream auth HTTP call (`validateStatus` accepts all
statuses; `transport` is an axios-level rejection). -/
inductive AuthResp where
  | ok (token refreshTok : String)
  | httpError (status : Nat)
  | transport (msg : String)
deriving DecidableEq, Repr

/-- Errors escaping `authenticate`/`refreshToken` (thrown `Error`s,
classified by the spec's taxonomy). -/
inductive AuthErr where
  | upstreamAuthError (status : Nat)
  | transportFailure (msg : String)
deriving DecidableEq, Repr

/-- Observable auth-service events. -/
inductive AuthEvent where
  | loginCall
  | refreshCall
  | clearTimer
  | armTimer (delay : Int)
deriving DecidableEq, Repr

/-- Context of one auth-service call: the upstream responses, the token
expiry decoder (`getTokenExpiration` applied to a token string) and the
frozen current time. -/
structure AuthCtx where
  loginResp : AuthResp
  refreshResp : AuthResp
  expOf : String → Int
  now : Int

/-- `setupAutoRefresh`: clear any prior timer, then (tokenPayload being
set) arm it to `max(expiresAt − now − 120000, 60000)` ms. -/
def setupAutoRefresh (ctx : AuthCtx) (st : AuthState) : AuthState × List AuthEvent :=
  let clearEvts : List AuthEvent :=
    if st.tokenRefreshInterval.isSome then [.clearTimer] else []
  match st.tokenPayload with
  | none => ({ st with tokenRefreshInterval := none }, clearEvts)
  | some tp =>
    let refreshDelay := max (tp.expiresAt - ctx.now - 120000) 60000
    ({ st with tokenRefreshInterval := some refreshDelay },
     clearEvts ++ [.armTimer refreshDelay])

/-- `authenticate()`: POST `/api/auth/login`; non-200 throws
`UpstreamAuthError`-class failure, transport failures rethrow; on 200 the
new credential is stored (expiry from `getTokenExpiration`) and
`setupAutoRefresh` is invoked, returning the access token. -/
def authenticate (ctx : AuthCtx) (st : AuthState) :
    Except AuthErr String × AuthState × List AuthEvent :=
  match ctx.loginResp with
  | .transport m => (.error (.transportFailure m), st, [.loginCall])
  | .httpError s => (.error (.upstreamAuthError s), st, [.loginCall])
  | .ok tok rtok =>
    let expiresAt := ctx.expOf tok
    let st1 : AuthState := { st with tokenPayload := some ⟨tok, rtok, expiresAt⟩ }
    let armed := setupAutoRefresh ctx st1
    (.ok tok, armed.1, [.loginCall] ++ armed.2)

/-- `refreshToken()`: with no refresh token held (absent credential or
falsy empty string), fall back to `authenticate()`.  Otherwise POST
`/api/auth/refresh`; a 401 falls back to `authenticate()`; any other
non-200 throws inside the `try`, and that throw — like any transport
failure — is caught by the surrounding `catch`, which also falls back to
`authenticate()`.  On 200 the new credential is stored and the token
returned, with no call to `setupAutoRefresh`. -/
def refreshToken (ctx : AuthCtx) (st : AuthState) :
    Except AuthErr String × AuthState × List AuthEvent :=
  match st.tokenPayload with
  | none => authenticate ctx st
  | some tp =>
    if tp.refreshToken = "" then authenticate ctx st
    else
      match ctx.refreshResp with
      | .transport _ =>
        let fb := authenticate ctx st
        (fb.1, fb.2.1, [.refreshCall] ++ fb.2.2)
      | .httpError s =>
        if s = 401 then
          let fb := authenticate ctx st
          (fb.1, fb.2.1, [.refreshCall] ++ fb.2.2)
        else
          let fb := authenticate ctx st
          (fb.1, fb.2.1, [.refreshCall] ++ fb.2.2)
      | .ok tok rtok =>
        let expiresAt := ctx.expOf tok
        (.ok tok, { st with tokenPayload := some ⟨tok, rtok, expiresAt⟩ },
         [.refreshCall])

/-- `getValidToken()`: no credential → `authenticate()`; under 60000 ms
remaining before expiry → `refreshToken()`; otherwise return the cached
access token with no network call and no state change. -/
def getValidToken (ctx : AuthCtx) (st : AuthState) :
    Except AuthErr String × AuthState × List AuthEvent :=
  match st.tokenPayload with
  | none => authenticate ctx st
  | some tp =>
    if tp.expiresAt - ctx.now < 60000 then refreshToken ctx st
    else (.ok tp.token, st, [])

/-- Concrete context: login succeeds, refresh endpoint succeeds. -/
def ctxW : AuthCtx :=
  { loginResp := .ok "newTok" "newRef", refreshResp := .ok "rTok" "rRef",
    expOf := fun _ => 9000000, now := 1000000 }

/-- Concrete state holding a fresh credential (1000000 ms remaining). -/
def stFresh : AuthState :=
  { tokenPayload := some ⟨"cachedTok", "cachedRef", 2000000⟩,
    tokenRefreshInterval := none }

/-- Concrete state holding an already-expired credential. -/
def stExpired : AuthState :=
  { tokenPayload := some ⟨"staleTok", "staleRef", 900000⟩,
    tokenRefreshInterval := none }

/-- C2: `getValidToken()` dispatches in exactly three cases — absent
credential → `authenticate()`; under 60000 ms remaining (in particular an
expiry already in the past) → `refreshToken()`, never the stale token;
otherwise the cached access token is returned with no upstream call and
no state change. -/
theorem C2_getValidToken_dispatch :
    (∀ ctx st, st.tokenPayload = none →
      getValidToken ctx st = authenticate ctx st)
  ∧ (∀ ctx st tp, st.tokenPayload = some tp → tp.expiresAt - ctx.now < 60000 →
      getValidToken ctx st = refreshToken ctx st)
  ∧ (∀ ctx st tp, st.tokenPayload = some tp → tp.expiresAt ≤ ctx.now →
      getValidToken ctx st = refreshToken ctx st)
  ∧ (∀ ctx st tp, st.tokenPayload = some tp → ¬ tp.expiresAt - ctx.now < 60000 →
      getValidToken ctx st = (Except.ok tp.token, st, [])) := by
  refine ⟨?_, ?_, ?_, ?_⟩
  · intro ctx st h
    simp [getValidToken, h]
  · intro ctx st tp h hlt
    simp [getValidToken, h, hlt]
  · intro ctx st tp h hle
    have hlt : tp.expiresAt - ctx.now < 60000 := by omega
    simp [getValidToken, h, hlt]
  · intro ctx st tp h hge
    simp [getValidToken, h, hge]

/-- Witness for C2 at concrete inputs: the fresh-credential case returns
the cached token unchanged, and the expired case dispatches to
`refreshToken`. -/
theorem C2_getValidToken_dispatch_witness :
    getValidToken ctxW stFresh = (Except.ok "cachedTok", stFresh, [])
  ∧ getValidToken ctxW stExpired = refreshToken ctxW stExpired := by
  constructor
  · exact C2_getValidToken_dispatch.2.2.2 ctxW stFresh _ rfl (by decide)
  · exact C2_getValidToken_dispatch.2.1 ctxW stExpired _ rfl (by decide)

/-- Concrete context: refresh endpoint answers 500, login succeeds. -/
def ctx500 : AuthCtx :=
  { loginResp := .ok "newTok" "newRef", refreshResp := .httpError 500,
    expOf := fun _ => 9000000, now := 1000000 }

/-- C3 counterexample: with a refresh token held and the upstream refresh
endpoint answering 500 (a non-success status other than 401),
`refreshToken()` does not fail with `UpstreamAuthError` — the internal
throw is caught by the same handler as transport failures and the call
falls back to `authenticate()`, succeeding with the login's token. -/
theorem C3_counterexample :
    (refreshToken ctx500 stFresh).1 = Except.ok "newTok"
  ∧ (refreshToken ctx500 stFresh).1 ≠ Except.error (AuthErr.upstreamAuthError 500)
  ∧ AuthEvent.loginCall ∈ (refreshToken ctx500 stFresh).2.2 := by
  refine ⟨rfl, by simp [show (refreshToken ctx500 stFresh).1 = Except.ok "newTok" from rfl], ?_⟩
  show AuthEvent.loginCall ∈ [AuthEvent.refreshCall, AuthEvent.loginCall,
    AuthEvent.armTimer 7880000]
  simp

/-- C3 (amended): when a refresh token is held, any non-success refresh
status — 401 or otherwise — and any transport failure all fall back to
`authenticate()` (the non-401 throw is caught by the surrounding catch);
with no refresh token held the call likewise falls back.  A refresh-path
`UpstreamAuthError` therefore never propagates; failures surface only
from the fallback `authenticate()` itself. -/
theorem C3_refresh_fallback :
    (∀ ctx st tp s, st.tokenPayload = some tp → tp.refreshToken ≠ "" →
      ctx.refreshResp = .httpError s →
      refreshToken ctx st
        = ((authenticate ctx st).1, (authenticate ctx st).2.1,
           [AuthEvent.refreshCall] ++ (authenticate ctx st).2.2))
  ∧ (∀ ctx st tp m, st.tokenPayload = some tp → tp.refreshToken ≠ "" →
      ctx.refreshResp = .transport m →
      refreshToken ctx st
        = ((authenticate ctx st).1, (authenticate ctx st).2.1,
           [AuthEvent.refreshCall] ++ (authenticate ctx st).2.2))
  ∧ (∀ ctx st, st.tokenPayload = none →
      refreshToken ctx st = authenticate ctx st)
  ∧ (∀ ctx st tp, st.tokenPayload = some tp → tp.refreshToken = "" →
      refreshToken ctx st = authenticate ctx st) := by
  refine ⟨?_, ?_, ?_, ?_⟩
  · intro ctx st tp s hst htok hresp
    cases hs : decide (s = 401) <;>
      simp_all [refreshToken, hst, htok, hresp]
  · intro ctx st tp m hst htok hresp
    simp [refreshToken, hst, htok, hresp]
  · intro ctx st hst
    simp [refreshToken, hst]
  · intro ctx st tp hst htok
    simp [refreshToken, hst, htok]

/-- Witness for C3 (amended) at the concrete 500-status context. -/
theorem C3_refresh_fallback_witness :
    refreshToken ctx500 stFresh
      = ((authenticate ctx500 stFresh).1, (authenticate ctx500 stFresh).2.1,
         [AuthEvent.refreshCall] ++ (authenticate ctx500 stFresh).2.2) :=
  C3_refresh_fallback.1 ctx500 stFresh _ 500 rfl (by decide) rfl

/-- Concrete context where the refresh endpoint succeeds. -/
def ctxRefOk : AuthCtx :=
  { loginResp := .httpError 503, refreshResp := .ok "refTok" "refRef",
    expOf := fun _ => 5000000, now := 1000000 }

/-- Concrete state with a credential and an armed renewal timer. -/
def stTimer : AuthState :=
  { tokenPayload := some ⟨"tokA", "refA", 1500000⟩,
    tokenRefreshInterval := some 777 }

/-- C5 counterexample: a successful `refreshToken()` stores a new
credential but does not rearm the renewal schedule — the timer field is
left exactly as it was (the stale 777, not
`max(5000000 − 1000000 − 120000, 60000) = 3880000`) and no arm event is
emitted. -/
theorem C5_counterexample :
    (refreshToken ctxRefOk stTimer).2.1.tokenPayload
      = some ⟨"refTok", "refRef", 5000000⟩
  ∧ (refreshToken ctxRefOk stTimer).2.1.tokenRefreshInterval = some 777
  ∧ (refreshToken ctxRefOk stTimer).2.2 = [AuthEvent.refreshCall]
  ∧ (refreshToken ctxRefOk stTimer).2.1.tokenRefreshInterval ≠ some 3880000 := by
  refine ⟨rfl, rfl, rfl, ?_⟩
  simp [show (refreshToken ctxRefOk stTimer).2.1.tokenRefreshInterval
    = some 777 from rfl]

/-- C5 (amended): at most one renewal timer is outstanding — arming via
`setupAutoRefresh` first cancels any prior pending timer and replaces it —
and a successful `authenticate()` arms the schedule to fire
`max(expiresAt − now − 120000, 60000)` ms later; but a successful direct
`refreshToken()` stores the new credential without rearming: only the
`authenticate()` path arms the schedule. -/
theorem C5_renewal_schedule :
    (∀ ctx st tok rtok, ctx.loginResp = .ok tok rtok →
      (authenticate ctx st).2.1.tokenRefreshInterval
          = some (max (ctx.expOf tok - ctx.now - 120000) 60000)
        ∧ (authenticate ctx st).2.2
          = [AuthEvent.loginCall]
            ++ (if st.tokenRefreshInterval.isSome then [AuthEvent.clearTimer] else [])
            ++ [AuthEvent.armTimer (max (ctx.expOf tok - ctx.now - 120000) 60000)])
  ∧ (∀ ctx st tp tok rtok, st.tokenPayload = some tp → tp.refreshToken ≠ "" →
      ctx.refreshResp = .ok tok rtok →
      refreshToken ctx st
        = (Except.ok tok,
           { st with tokenPayload := some ⟨tok, rtok, ctx.expOf tok⟩ },
           [AuthEvent.refreshCall])) := by
  constructor
  · intro ctx st tok rtok hlogin
    constructor
    · simp [authenticate, hlogin, setupAutoRefresh]
    · simp [authenticate, hlogin, setupAutoRefresh]
  · intro ctx st tp tok rtok hst htok hresp
    simp [refreshToken, hst, htok, hresp]

/-- Witness for C5 (amended): authenticate with a prior timer cancels and
rearms it; a successful refresh leaves the timer untouched. -/
theorem C5_renewal_schedule_witness :
    (authenticate ctxW stTimer).2.1.tokenRefreshInterval = some 7880000
  ∧ (authenticate ctxW stTimer).2.2
      = [AuthEvent.loginCall, AuthEvent.clearTimer, AuthEvent.armTimer 7880000]
  ∧ refreshToken ctxRefOk stTimer
      = (Except.ok "refTok",
         { stTimer with tokenPayload := some ⟨"refTok", "refRef", 5000000⟩ },
         [AuthEvent.refreshCall]) := by
  have h1 := C5_renewal_schedule.1 ctxW stTimer "newTok" "newRef" rfl
  have h2 := C5_renewal_schedule.2 ctxRefOk stTimer _ "refTok" "refRef" rfl
    (by decide) rfl
  exact ⟨h1.1, h1.2, h2⟩


/-! ## JWT expiry derivation (`getTokenExpiration`)

`token.split('.')` is modelled on the character list; the base64 +
`JSON.parse` library stage enters as a parameter `parsePayload : List
Char → Option (Option Int)` — `none` when decoding throws, `some
expClaim` for a parsed object whose numeric `exp` claim is `expClaim`.
The source guard `if (payload.exp)` is JavaScript truthiness, so a
present `exp` of `0` is treated as absent. -/

/-- JavaScript `s.split('.')` on a character list. -/
def jsSplitDot : List Char → List (List Char)
  | [] => [[]]
  | c :: rest =>
    if c = '.' then [] :: jsSplitDot rest
    else
      match jsSplitDot rest with
      | h :: t => (c :: h) :: t
      | [] => [[c]]

/-- `getTokenExpiration`: three `'.'`-separated parts with a decodable
payload carrying a truthy `exp` yield `exp * 1000`; every other case —
malformed format (throw caught), undecodable payload (throw caught),
missing `exp`, or falsy `exp = 0` — defaults to now + 15 minutes. -/
def getTokenExpiration (parsePayload : List Char → Option (Option Int))
    (token : String) (now : Int) : Int :=
  match jsSplitDot token.toList with
  | [_, payloadPart, _] =>
    match parsePayload payloadPart with
    | some (some e) => if e ≠ 0 then e * 1000 else now + 15 * 60 * 1000
    | some none => now + 15 * 60 * 1000
    | none => now + 15 * 60 * 1000
  | _ => now + 15 * 60 * 1000

/-- Library decode behaviour for the counterexample: the base64 payload
`"eyJleHAiOjB9"` is `{"exp":0}`. -/
def parseExpZero : List Char → Option (Option Int) :=
  fun s => if s = "eyJleHAiOjB9".toList then some (some 0) else none

/-- C6 counterexample: the well-formed, decodable token
`"hdr.eyJleHAiOjB9.sig"` carries the `exp` claim `0`, yet
`getTokenExpiration` returns now + 15 minutes instead of `0 * 1000` —
the `if (payload.exp)` truthiness guard drops a present-but-zero claim. -/
theorem C6_counterexample :
    parseExpZero "eyJleHAiOjB9".toList = some (some 0)
  ∧ getTokenExpiration parseExpZero "hdr.eyJleHAiOjB9.sig" 1000000 = 1900000
  ∧ getTokenExpiration parseExpZero "hdr.eyJleHAiOjB9.sig" 1000000 ≠ 0 * 1000 := by
  refine ⟨by decide, by decide, by decide⟩

/-- C6 (amended): `expiresAtEpochMillis` equals the embedded `exp` claim
× 1000 whenever the token splits into three parts, the payload decodes,
and the claim is present and truthy (nonzero); a malformed token, an
undecodable payload, a missing `exp`, or a falsy `exp = 0` all default to
the current time plus 15 minutes. -/
theorem C6_token_expiration :
    (∀ parse (token : String) now h p s e, jsSplitDot token.toList = [h, p, s] →
      parse p = some (some e) → e ≠ 0 →
      getTokenExpiration parse token now = e * 1000)
  ∧ (∀ parse (token : String) now h p s, jsSplitDot token.toList = [h, p, s] →
      parse p = some (some 0) →
      getTokenExpiration parse token now = now + 15 * 60 * 1000)
  ∧ (∀ parse (token : String) now h p s, jsSplitDot token.toList = [h, p, s] →
      parse p = some none →
      getTokenExpiration parse token now = now + 15 * 60 * 1000)
  ∧ (∀ parse (token : String) now h p s, jsSplitDot token.toList = [h, p, s] →
      parse p = none →
      getTokenExpiration parse token now = now + 15 * 60 * 1000)
  ∧ (∀ parse (token : String) now, (jsSplitDot token.toList).length ≠ 3 →
      getTokenExpiration parse token now = now + 15 * 60 * 1000) := by
  refine ⟨?_, ?_, ?_, ?_, ?_⟩
  · intro parse token now h p s e hsplit hparse he
    have hd : jsSplitDot token.data = [h, p, s] := hsplit
    simp [getTokenExpiration, hd, hparse, he]
  · intro parse token now h p s hsplit hparse
    have hd : jsSplitDot token.data = [h, p, s] := hsplit
    simp [getTokenExpiration, hd, hparse]
  · intro parse token now h p s hsplit hparse
    have hd : jsSplitDot token.data = [h, p, s] := hsplit
    simp [getTokenExpiration, hd, hparse]
  · intro parse token now h p s hsplit hparse
    have hd : jsSplitDot token.data = [h, p, s] := hsplit
    simp [getTokenExpiration, hd, hparse]
  · intro parse token now hlen
    unfold getTokenExpiration
    match hsplit : jsSplitDot token.toList with
    | [] => rfl
    | [_] => rfl
    | [_, _] => rfl
    | [a, b, c] => exact absurd (by rw [hsplit]; rfl) hlen
    | _ :: _ :: _ :: _ :: _ => rfl

/-- Library decode behaviour for the witness: the base64 payload
`"eyJleHAiOjE3MDB9"` is `{"exp":1700}`. -/
def parseExp1700 : List Char → Option (Option Int) :=
  fun s => if s = "eyJleHAiOjE3MDB9".toList then some (some 1700) else none

/-- Witness for C6 (amended) at a concrete decodable token with a truthy
`exp` claim of 1700 seconds. -/
theorem C6_token_expiration_witness :
    getTokenExpiration parseExp1700 "hdr.eyJleHAiOjE3MDB9.sig" 1000000
      = 1700 * 1000 :=
  C6_token_expiration.1 parseExp1700 "hdr.eyJleHAiOjE3MDB9.sig" 1000000
    "hdr".toList "eyJleHAiOjE3MDB9".toList "sig".toList 1700
    (by decide) (by decide) (by decide)

/-! ## Concurrent `getValidToken()` callers (event-loop interleaving)

Two tasks run `getValidToken()` over the shared `tokenPayload`.  Each
task is the code cut at its only suspension point, the awaited upstream
auth HTTP call: the synchronous prefix checks the credential and — when
renewal is needed — issues the `axios.post` (counted at issue time); the
resumption stores the response's credential and returns its token.  A
schedule lists which task runs its next segment. -/

/-- Program counter of one `getValidToken()` task. -/
inductive TaskPC where
  | start
  | awaitingLogin
  | awaitingRefresh
  | taskDone (tok : String)
deriving DecidableEq, Repr

/-- Upstream responses (both calls succeed) and the frozen clock. -/
structure ConcCtx where
  now : Int
  loginTok : String
  loginRefTok : String
  loginExp : Int
  refreshTok : String
  refreshRefTok : String
  refreshExp : Int
deriving DecidableEq, Repr

/-- Shared credential, both program counters, and upstream call counts. -/
structure ConcState where
  shared : Option TokenPayload
  pcA : TaskPC
  pcB : TaskPC
  refreshCalls : Nat
  loginCalls : Nat
deriving DecidableEq, Repr

/-- One cooperative step of a task: the `getValidToken()` dispatch
followed by `refreshToken()`/`authenticate()` up to the awaited
`axios.post`, or the post-await continuation storing the new credential. -/
def stepTask (ctx : ConcCtx) (shared : Option TokenPayload) (pc : TaskPC)
    (rc lc : Nat) : Option TokenPayload × TaskPC × Nat × Nat :=
  match pc with
  | .start =>
    match shared with
    | none => (shared, .awaitingLogin, rc, lc + 1)
    | some tp =>
      if tp.expiresAt - ctx.now < 60000 then
        if tp.refreshToken = "" then (shared, .awaitingLogin, rc, lc + 1)
        else (shared, .awaitingRefresh, rc + 1, lc)
      else (shared, .taskDone tp.token, rc, lc)
  | .awaitingLogin =>
    (some ⟨ctx.loginTok, ctx.loginRefTok, ctx.loginExp⟩,
     .taskDone ctx.loginTok, rc, lc)
  | .awaitingRefresh =>
    (some ⟨ctx.refreshTok, ctx.refreshRefTok, ctx.refreshExp⟩,
     .taskDone ctx.refreshTok, rc, lc)
  | .taskDone t => (shared, .taskDone t, rc, lc)

/-- Run the chosen task (`true` = A, `false` = B) for one segment. -/
def stepSystem (ctx : ConcCtx) (st : ConcState) (taskA : Bool) : ConcState :=
  if taskA then
    let r := stepTask ctx st.shared st.pcA st.refreshCalls st.loginCalls
    { st with shared := r.1, pcA := r.2.1, refreshCalls := r.2.2.1,
              loginCalls := r.2.2.2 }
  else
    let r := stepTask ctx st.shared st.pcB st.refreshCalls st.loginCalls
    { st with shared := r.1, pcB := r.2.1, refreshCalls := r.2.2.1,
              loginCalls := r.2.2.2 }

/-- Execute a cooperative schedule. -/
def runSchedule (ctx : ConcCtx) : List Bool → ConcState → ConcState
  | [], st => st
  | b :: rest, st => runSchedule ctx rest (stepSystem ctx st b)

/-- Both tasks start in `getValidToken()` over a shared credential. -/
def initConc (tp : TokenPayload) : ConcState :=
  { shared := some tp, pcA := .start, pcB := .start,
    refreshCalls := 0, loginCalls := 0 }

/-- Concrete context for the concurrency scenario. -/
def ctxConc : ConcCtx :=
  { now := 1000000, loginTok := "l1", loginRefTok := "lr1", loginExp := 9000000,
    refreshTok := "n1", refreshRefTok := "nr1", refreshExp := 9000000 }

/-- Concrete expiring credential (30000 ms remaining, under the 60000 ms
window). -/
def tpExpiring : TokenPayload := ⟨"old", "r", 1030000⟩

/-- C4 counterexample: with the token inside its expiry window, the
near-simultaneous interleaving — A checks, B checks, A's refresh
completes, B's refresh completes — issues TWO upstream refresh calls,
not at most one: there is no in-flight-request guard. -/
theorem C4_counterexample :
    (runSchedule ctxConc [true, false, true, false] (initConc tpExpiring)).refreshCalls = 2
  ∧ ¬ (runSchedule ctxConc [true, false, true, false]
        (initConc tpExpiring)).refreshCalls ≤ 1 := by
  constructor <;> decide

/-- C4 (amended): the implementation has no in-flight-request guard —
every `getValidToken()` caller that observes the expiring credential
before a renewal completes issues its own upstream refresh call, so two
interleaved callers issue exactly two; only a caller scheduled after
another's renewal has completed reuses the fresh credential and issues
none (serialization holds by timing alone, one call in that order). -/
theorem C4_no_single_flight :
    (∀ ctx tp, tp.expiresAt - ctx.now < 60000 → tp.refreshToken ≠ "" →
      (runSchedule ctx [true, false, true, false] (initConc tp)).refreshCalls = 2)
  ∧ (∀ ctx tp, tp.expiresAt - ctx.now < 60000 → tp.refreshToken ≠ "" →
      ctx.refreshExp - ctx.now ≥ 60000 →
      (runSchedule ctx [true, true, false] (initConc tp)).refreshCalls = 1
      ∧ (runSchedule ctx [true, true, false] (initConc tp)).pcB
          = TaskPC.taskDone ctx.refreshTok) := by
  constructor
  · intro ctx tp hexp htok
    simp [runSchedule, stepSystem, stepTask, initConc, hexp, htok]
  · intro ctx tp hexp htok hfresh
    have hge : ¬ ctx.refreshExp - ctx.now < 60000 := by omega
    constructor <;>
      simp [runSchedule, stepSystem, stepTask, initConc, hexp, htok, hge]

/-- Witness for C4 (amended) at the concrete expiring credential. -/
theorem C4_no_single_flight_witness :
    (runSchedule ctxConc [true, false, true, false] (initConc tpExpiring)).refreshCalls = 2
  ∧ (runSchedule ctxConc [true, true, false] (initConc tpExpiring)).refreshCalls = 1 :=
  ⟨C4_no_single_flight.1 ctxConc tpExpiring (by decide) (by decide),
   (C4_no_single_flight.2 ctxConc tpExpiring (by decide) (by decide) (by decide)).1⟩

/-! ## Gateway error classification (device timeseries catch handler)

The service throws `Error`s whose messages are the formats below; the
route's catch handler inspects `errorMsg.includes('not found')` and
answers 404, else 502.  `String.prototype.includes` is modelled on
character lists. -/

/-- `needle.isPrefixOf hay` on character lists. -/
def hasPrefixCl : List Char → List Char → Bool
  | [], _ => true
  | _ :: _, [] => false
  | a :: as, b :: bs => a = b && hasPrefixCl as bs

/-- `hay.includes(needle)` on character lists. -/
def containsSub (needle : List Char) : List Char → Bool
  | [] => needle.isEmpty
  | c :: t => hasPrefixCl needle (c :: t) || containsSub needle t

/-- JavaScript `hay.includes(needle)`. -/
def jsIncludes (hay needle : String) : Bool :=
  containsSub needle.toList hay.toList

/-- Terminal failures reaching the device timeseries catch handler. -/
inductive QueryFailure where
  | entityNotFound (entityType entityId : String)
  | badRequest (upstreamMsg : String)
  | apiError (status : Nat) (statusText body : String)
  | transport (msg : String)
  | deviceNotFound (deviceUUID : String)
deriving DecidableEq, Repr

/-- The thrown `Error`'s message, as formatted by the source. -/
def errMsg : QueryFailure → String
  | .entityNotFound et eid =>
      "Entity not found: " ++ et ++ "/" ++ eid ++ " (404). Check entity ID and type."
  | .badRequest m => "Bad request: " ++ m
  | .apiError s st b =>
      "ThingsBoard API error: " ++ toString s ++ " " ++ st ++ "\n" ++ b
  | .transport m => m
  | .deviceNotFound uuid => "Device with UUID " ++ uuid ++ " not found"

/-- The catch handler of `GET /:deviceUUID/timeseries`: message contains
`"not found"` → HTTP 404, anything else → HTTP 502. -/
def catchStatus (f : QueryFailure) : Nat :=
  if jsIncludes (errMsg f) "not found" then 404 else 502

/-- A prefix of the haystack stays a prefix after appending. -/
theorem hasPrefixCl_append (n h l : List Char) (hp : hasPrefixCl n h = true) :
    hasPrefixCl n (h ++ l) = true := by
  induction n generalizing h with
  | nil => simp [hasPrefixCl]
  | cons a as ih =>
    cases h with
    | nil => simp [hasPrefixCl] at hp
    | cons b bs =>
      simp [hasPrefixCl] at hp ⊢
      exact ⟨hp.1, ih bs hp.2⟩

/-- A substring of the left part is a substring of the concatenation. -/
theorem containsSub_append_left (n h l : List Char)
    (hc : containsSub n h = true) : containsSub n (h ++ l) = true := by
  induction h with
  | nil =>
    simp [containsSub] at hc
    cases n with
    | nil => cases l <;> simp [containsSub, hasPrefixCl]
    | cons a as => simp [List.isEmpty] at hc
  | cons c t ih =>
    simp only [containsSub, Bool.or_eq_true] at hc
    rcases hc with hp | ht
    · simp only [List.cons_append, containsSub, Bool.or_eq_true]
      exact Or.inl (hasPrefixCl_append n (c :: t) l hp)
    · simp only [List.cons_append, containsSub, Bool.or_eq_true]
      exact Or.inr (ih ht)

/-- C7 counterexample: an upstream 400 produces the terminal failure
carrying the upstream message, but the gateway answers 502, not 400 —
`"Bad request: Invalid parameters"` does not contain `"not found"`. -/
theorem C7_counterexample :
    catchStatus (QueryFailure.badRequest "Invalid parameters") = 502
  ∧ catchStatus (QueryFailure.badRequest "Invalid parameters") ≠ 400 := by
  constructor <;> decide

/-- A substring of the right part is a substring of the concatenation. -/
theorem containsSub_append_right (n h l : List Char)
    (hc : containsSub n l = true) : containsSub n (h ++ l) = true := by
  induction h with
  | nil => simpa using hc
  | cons c t ih =>
    simp only [List.cons_append, containsSub, Bool.or_eq_true]
    exact Or.inr ih

/-- Prepending `"Bad request: "` cannot create an occurrence of
`"not found"`: no character of the prefix matches the needle's head. -/
theorem containsSub_nf_badRequest (m : List Char) :
    containsSub "not found".toList ("Bad request: ".toList ++ m)
      = containsSub "not found".toList m := by
  simp +decide [containsSub, hasPrefixCl, show "Bad request: ".toList ++ m
    = 'B' :: 'a' :: 'd' :: ' ' :: 'r' :: 'e' :: 'q' :: 'u' :: 'e' :: 's' ::
      't' :: ':' :: ' ' :: m from rfl]

/-- C7 (amended): every terminal query failure maps through the catch
handler to 404 or 502 — never 500 and never 400: an upstream 404 (entity
not found) and a missing device yield a gateway 404; an upstream 400
yields the failure carrying the upstream message but a gateway 502
(gateway 400 arises only from pre-dispatch validation); a transport
failure whose message lacks `"not found"` yields 502. -/
theorem C7_gateway_status :
    (∀ et eid, catchStatus (.entityNotFound et eid) = 404)
  ∧ (∀ uuid, catchStatus (.deviceNotFound uuid) = 404)
  ∧ (∀ m, containsSub "not found".toList m.toList = false →
      catchStatus (.badRequest m) = 502)
  ∧ (∀ m, containsSub "not found".toList m.toList = false →
      catchStatus (.transport m) = 502)
  ∧ (∀ f, catchStatus f = 404 ∨ catchStatus f = 502) := by
  refine ⟨?_, ?_, ?_, ?_, ?_⟩
  · intro et eid
    have hocc : jsIncludes (errMsg (.entityNotFound et eid)) "not found" = true := by
      show containsSub "not found".toList
        (("Entity not found: " ++ et ++ "/" ++ eid
          ++ " (404). Check entity ID and type.").toList) = true
      have hsplit : ("Entity not found: " ++ et ++ "/" ++ eid
          ++ " (404). Check entity ID and type.").toList
        = "Entity not found: ".toList
          ++ (et ++ "/" ++ eid ++ " (404). Check entity ID and type.").toList := by
        simp [String.toList, String.data_append, List.append_assoc]
      rw [hsplit]
      exact containsSub_append_left _ _ _ (by decide)
    simp [catchStatus, hocc]
  · intro uuid
    have hocc : jsIncludes (errMsg (.deviceNotFound uuid)) "not found" = true := by
      show containsSub "not found".toList
        (("Device with UUID " ++ uuid ++ " not found").toList) = true
      have hsplit : ("Device with UUID " ++ uuid ++ " not found").toList
          = ("Device with UUID " ++ uuid).toList ++ " not found".toList := by
        simp [String.toList, String.data_append]
      rw [hsplit]
      exact containsSub_append_right _ _ _ (by decide)
    simp [catchStatus, hocc]
  · intro m hm
    have hocc : jsIncludes (errMsg (.badRequest m)) "not found" = false := by
      show containsSub "not found".toList (("Bad request: " ++ m).toList) = false
      have hsplit : ("Bad request: " ++ m).toList
          = "Bad request: ".toList ++ m.toList := by
        simp [String.toList, String.data_append]
      rw [hsplit, containsSub_nf_badRequest]
      exact hm
    simp [catchStatus, hocc]
  · intro m hm
    have hocc : jsIncludes (errMsg (.transport m)) "not found" = false := hm
    simp [catchStatus, hocc]
  · intro f
    unfold catchStatus
    split <;> simp

/-- Witness for C7 (amended) at concrete failures: the example device
UUID's missing entity answers 404, and a concrete upstream-400 message
answers 502. -/
theorem C7_gateway_status_witness :
    catchStatus (.entityNotFound "DEVICE" "545ffcb0-ab9c-11f0-a05e-97f672464deb") = 404
  ∧ catchStatus (.badRequest "Invalid timestamp") = 502 :=
  ⟨C7_gateway_status.1 "DEVICE" "545ffcb0-ab9c-11f0-a05e-97f672464deb",
   C7_gateway_status.2.2.1 "Invalid timestamp" (by decide)⟩

/-! ## Query parameter validation and dispatch (timeseries route)

Raw Express query values are `string | undefined`; JavaScript truthiness
(`undefined` and `""` falsy), `parseInt(·, 10)` (NaN as `none`), `split`,
`trim`, `toUpperCase`/`toLowerCase` and `includes` are modelled
executably on character lists.  The dispatch record holds exactly the
arguments passed to `telemetryService.getTimeseries`. -/

/-- JavaScript truthiness of an optional query string. -/
def truthy : Option String → Bool
  | none => false
  | some s => !(s == "")

/-- JavaScript `String(x)` on an optional query string. -/
def strOf : Option String → String
  | none => "undefined"
  | some s => s

/-- `s.split(sep)` on a character list. -/
def jsSplitCh (sep : Char) : List Char → List (List Char)
  | [] => [[]]
  | c :: rest =>
    if c = sep then [] :: jsSplitCh sep rest
    else
      match jsSplitCh sep rest with
      | h :: t => (c :: h) :: t
      | [] => [[c]]

/-- `s.trim()` on a character list. -/
def trimCl (cs : List Char) : List Char :=
  ((cs.dropWhile Char.isWhitespace).reverse.dropWhile Char.isWhitespace).reverse

/-- `s.toUpperCase()` on a character list (ASCII, as used here). -/
def toUpperCl (cs : List Char) : List Char := cs.map Char.toUpper

/-- `s.toLowerCase()` on a character list (ASCII, as used here). -/
def toLowerCl (cs : List Char) : List Char := cs.map Char.toLower

/-- `parseInt(s, 10)`: skip leading whitespace, optional sign, longest
digit prefix; `none` models NaN. -/
def jsParseInt (s : String) : Option Int :=
  let cs := s.toList.dropWhile Char.isWhitespace
  let num : List Char → Option Nat := fun l =>
    let ds := l.takeWhile Char.isDigit
    if ds.isEmpty then none
    else some (ds.foldl (fun a c => a * 10 + (c.toNat - 48)) 0)
  match cs with
  | '-' :: rest => (num rest).map (fun n => -(n : Int))
  | '+' :: rest => (num rest).map (fun n => (n : Int))
  | _ => (num cs).map (fun n => (n : Int))

/-- The guard `value && (isNaN(value) || value < 1)` on a parsed optional
number (`none` = not provided, `some none` = NaN): only a truthy —
nonzero, non-NaN — value below 1 trips it. -/
def badPosGuard : Option (Option Int) → Bool
  | some (some n) => (!(n == 0)) && (n < 1)
  | some none => false
  | none => false

/-- The distinct `ValidationError`s of the route, in source order. -/
inductive ValErr where
  | missingParams
  | badTimestamp
  | tsOrder
  | emptyKeys
  | badInterval
  | badAgg
  | badOrder
  | badLimit
deriving DecidableEq, Repr

/-- The arguments handed to `telemetryService.getTimeseries`. -/
structure DispatchReq where
  keys : List (List Char)
  startTs : Int
  endTs : Int
  interval : Option (Option Int)
  agg : Option String
  orderBy : Option String
  limit : Option (Option Int)
  strict : Option Bool
deriving DecidableEq, Repr

/-- Raw query-string inputs of the timeseries route. -/
structure RawQuery where
  keys : Option String
  startTs : Option String
  endTs : Option String
  interval : Option String
  agg : Option String
  orderBy : Option String
  limit : Option String
  useStrictDataTypes : Option String
deriving DecidableEq, Repr

/-- `["NONE", "AVG", "MIN", "MAX", "SUM"]`. -/
def validAggCl : List (List Char) :=
  ["NONE".toList, "AVG".toList, "MIN".toList, "MAX".toList, "SUM".toList]

/-- `["ASC", "DESC"]`. -/
def validOrderCl : List (List Char) := ["ASC".toList, "DESC".toList]

/-- `String(keys).split(',').map(trim).filter(nonempty)`. -/
def keyArrayOf (q : RawQuery) : List (List Char) :=
  ((jsSplitCh ',' (strOf q.keys).toList).map trimCl).filter
    (fun k => 0 < k.length)

/-- `interval ? parseInt(String(interval), 10) : undefined`. -/
def intervalValueOf (q : RawQuery) : Option (Option Int) :=
  if truthy q.interval then some (jsParseInt (strOf q.interval)) else none

/-- `limit ? parseInt(String(limit), 10) : undefined`. -/
def limitValueOf (q : RawQuery) : Option (Option Int) :=
  if truthy q.limit then some (jsParseInt (strOf q.limit)) else none

/-- `useStrictDataTypes && lower(useStrictDataTypes) === 'true' ? true :
undefined`. -/
def strictValueOf (q : RawQuery) : Option Bool :=
  if truthy q.useStrictDataTypes
      ∧ toLowerCl (strOf q.useStrictDataTypes).toList = "true".toList then
    some true
  else none

/-- `agg ? String(agg) : undefined` — the original-case string. -/
def aggDispatchOf (q : RawQuery) : Option String :=
  if truthy q.agg then some (strOf q.agg) else none

/-- `orderBy ? String(orderBy) : undefined` — the original-case string. -/
def orderDispatchOf (q : RawQuery) : Option String :=
  if truthy q.orderBy then some (strOf q.orderBy) else none

/-- The route's validation chain followed by the dispatch: missing
required params; NaN timestamps; `startTs >= endTs`; empty key list after
split/trim/filter; the interval guard; aggregation and order checked
case-insensitively; the limit guard; then `getTimeseries` is invoked with
the original-case `agg`/`orderBy` strings, the parsed interval/limit
values as they are, and the strict flag (`true` or absent). -/
def validateTimeseriesQuery (q : RawQuery) : Except ValErr DispatchReq :=
  if ¬ (truthy q.keys ∧ truthy q.startTs ∧ truthy q.endTs) then
    .error .missingParams
  else
    match jsParseInt (strOf q.startTs), jsParseInt (strOf q.endTs) with
    | none, _ => .error .badTimestamp
    | some _, none => .error .badTimestamp
    | some sTs, some eTs =>
      if sTs ≥ eTs then .error .tsOrder
      else
        if (keyArrayOf q).length = 0 then .error .emptyKeys
        else
          if badPosGuard (intervalValueOf q) then .error .badInterval
          else if truthy q.agg
              ∧ ¬ validAggCl.contains (toUpperCl (strOf q.agg).toList) then
            .error .badAgg
          else if truthy q.orderBy
              ∧ ¬ validOrderCl.contains (toUpperCl (strOf q.orderBy).toList) then
            .error .badOrder
          else
            if badPosGuard (limitValueOf q) then .error .badLimit
            else
              .ok { keys := keyArrayOf q
                    startTs := sTs
                    endTs := eTs
                    interval := intervalValueOf q
                    agg := aggDispatchOf q
                    orderBy := orderDispatchOf q
                    limit := limitValueOf q
                    strict := strictValueOf q }

/-- The raw query of the counterexample: valid keys and timestamps, a
provided `interval=0` (not a positive number) and a lowercase
`agg=avg`. -/
def q8 : RawQuery :=
  { keys := some "temperature,humidity", startTs := some "1705689600000",
    endTs := some "1705776000000", interval := some "0", agg := some "avg",
    orderBy := none, limit := none, useStrictDataTypes := none }

/-- The dispatch the route actually performs on `q8`. -/
def d8 : DispatchReq :=
  { keys := ["temperature".toList, "humidity".toList],
    startTs := 1705689600000, endTs := 1705776000000,
    interval := some (some 0), agg := some "avg", orderBy := none,
    limit := none, strict := none }

/-- C8 counterexample: the provided interval `"0"` is not a positive
number, yet the query is not rejected — `parseInt` gives `0`, which is
falsy, so the guard `intervalValue && (… || intervalValue < 1)` does not
trip, and the query is dispatched with `interval = 0`; moreover the
validated `agg=avg` is dispatched in its original case, not uppercased. -/
theorem C8_counterexample :
    validateTimeseriesQuery q8 = Except.ok d8
  ∧ validateTimeseriesQuery q8 ≠ Except.error ValErr.badInterval
  ∧ d8.interval = some (some 0)
  ∧ d8.agg = some "avg"
  ∧ d8.agg ≠ some "AVG" := by
  refine ⟨rfl, ?_, rfl, rfl, ?_⟩
  · simp [show validateTimeseriesQuery q8 = Except.ok d8 from rfl]
  · simp [d8]

/-- C8 (amended): a dispatched query never carries a guard-tripping
interval or limit (a parsed negative value is rejected with the distinct
`badInterval`/`badLimit` validation error before the dispatch), but a
provided `"0"` or non-numeric value is falsy and slips through, dispatched
as parsed; the dispatch carries `agg`/`orderBy` in their original case —
only the membership check is case-insensitive (uppercased) — and the
strict-types flag is `true` exactly when the raw flag is provided and
case-insensitively equals `"true"`, and is otherwise absent, never
`false`. -/
theorem C8_validation_dispatch :
    (∀ q d, validateTimeseriesQuery q = Except.ok d →
      badPosGuard (intervalValueOf q) = false
      ∧ badPosGuard (limitValueOf q) = false
      ∧ d.interval = intervalValueOf q
      ∧ d.limit = limitValueOf q
      ∧ d.agg = aggDispatchOf q
      ∧ d.orderBy = orderDispatchOf q
      ∧ d.strict = strictValueOf q
      ∧ d.keys = keyArrayOf q)
  ∧ (∀ q d, validateTimeseriesQuery q = Except.ok d → truthy q.agg = true →
      validAggCl.contains (toUpperCl (strOf q.agg).toList) = true)
  ∧ (∀ q, strictValueOf q ≠ some false)
  ∧ (∀ q, strictValueOf q = some true →
      truthy q.useStrictDataTypes = true
      ∧ toLowerCl (strOf q.useStrictDataTypes).toList = "true".toList)
  ∧ (∀ q sTs eTs, truthy q.keys = true → truthy q.startTs = true →
      truthy q.endTs = true →
      jsParseInt (strOf q.startTs) = some sTs →
      jsParseInt (strOf q.endTs) = some eTs →
      ¬ sTs ≥ eTs → (keyArrayOf q).length ≠ 0 →
      badPosGuard (intervalValueOf q) = true →
      validateTimeseriesQuery q = Except.error ValErr.badInterval) := by
  refine ⟨?_, ?_, ?_, ?_, ?_⟩
  · intro q d h
    unfold validateTimeseriesQuery at h
    repeat' split at h
    all_goals simp_all
    exact h.symm ▸ ⟨rfl, rfl, rfl, rfl, rfl, rfl⟩
  · intro q d h hagg
    unfold validateTimeseriesQuery at h
    repeat' split at h
    all_goals simp_all
  · intro q
    unfold strictValueOf
    split <;> simp
  · intro q h
    unfold strictValueOf at h
    split at h
    · simp_all
    · simp at h
  · intro q sTs eTs hk hs he hps hpe hord hkeys hguard
    unfold validateTimeseriesQuery
    simp [hk, hs, he, hps, hpe, hord, hkeys, hguard]

/-- Witness for C8 (amended): a provided `interval="-5"` parses negative,
trips the guard, and is rejected with the `badInterval` validation error
with no dispatch. -/
theorem C8_validation_dispatch_witness :
    validateTimeseriesQuery
      { keys := some "temperature", startTs := some "100", endTs := some "200",
        interval := some "-5", agg := none, orderBy := none, limit := none,
        useStrictDataTypes := none }
      = Except.error ValErr.badInterval :=
  C8_validation_dispatch.2.2.2.2
    { keys := some "temperature", startTs := some "100", endTs := some "200",
      interval := some "-5", agg := none, orderBy := none, limit := none,
      useStrictDataTypes := none }
    100 200 (by decide) (by decide) (by decide) (by decide) (by decide)
    (by decide) (by decide) (by decide)

/-! ## Credential exposure (constructor logging and the success body)

The `ThingsboardAuthService` constructor `console.log`s the configured
username and password; the device timeseries 200 body embeds the device's
`accessToken`. -/

/-- The three `console.log` lines emitted by the constructor
(`console.log('X:', v)` prints `"X: " ++ v`). -/
def constructorLogs (baseUrl username password : String) : List String :=
  ["THINGSBOARD_USERNAME: " ++ username,
   "THINGSBOARD_PASSWORD: " ++ password,
   "THINGSBOARD_BASE_URL: " ++ baseUrl]

/-- The `device` object of the timeseries success response body. -/
structure DeviceInfo where
  uuid : String
  name : Option String
  accessToken : String
deriving DecidableEq, Repr

/-- The 200 response body of `GET /:deviceUUID/timeseries`. -/
structure TsSuccessBody where
  success : Bool
  data : TsData
  device : DeviceInfo
deriving DecidableEq, Repr

/-- The success body as built by the route: `success: true`, the parsed
data, and `{uuid, name, accessToken}` taken from the looked-up device. -/
def timeseriesSuccessBody (device : Device) (data : TsData) : TsSuccessBody :=
  { success := true, data := data,
    device := { uuid := device.deviceUUID, name := device.name,
                accessToken := device.accessToken } }

/-- C9: the code leaks credentials on every construction and on every
timeseries success response — the constructor logs the configured
password (and username) in plaintext, and the 200 body embeds the
device-level access token; the spec's never-log/never-include requirement
is violated. -/
theorem C9_credentials_leak :
    (∀ b u p, ("THINGSBOARD_PASSWORD: " ++ p) ∈ constructorLogs b u p)
  ∧ (∀ b u p, ("THINGSBOARD_USERNAME: " ++ u) ∈ constructorLogs b u p)
  ∧ jsIncludes "THINGSBOARD_PASSWORD: hunter2" "hunter2" = true
  ∧ (∀ dev data, (timeseriesSuccessBody dev data).device.accessToken
      = dev.accessToken) := by
  refine ⟨?_, ?_, by decide, ?_⟩
  · intro b u p
    simp [constructorLogs]
  · intro b u p
    simp [constructorLogs]
  · intro dev data
    rfl

/-! ## Device directory cache (`DeviceService.getDevices`)

State: the cached device list and its timestamp; the fetch outcome (an
axios failure, or a payload unwrapped through the `{success, data}`
envelope and checked with `Array.isArray`) enters as a parameter.  The
whole body sits in one `try` whose `catch` returns the cached list when
one exists and rethrows otherwise. -/

/-- `private readonly cacheDuration = 5 * 60 * 1000`. -/
def cacheDuration : Int := 5 * 60 * 1000

/-- The mutable fields of `DeviceService`. -/
structure DevState where
  devicesCache : Option (List Device)
  cacheTimestamp : Int
deriving DecidableEq, Repr

/-- Shape of the fetched body: a bare array, a `{data: …}` wrapper around
an array or a non-array, or a non-array without `data`. -/
inductive DevicesPayload where
  | rawArray (ds : List Device)
  | wrappedArray (ds : List Device)
  | wrappedNonArray
  | nonArray
deriving DecidableEq, Repr

/-- Outcome of the `axios.get`. -/
inductive FetchOutcome where
  | ok (payload : DevicesPayload)
  | networkError (msg : String)
deriving DecidableEq, Repr

/-- `'data' in payload ? payload.data : payload`, then `Array.isArray`. -/
def unwrapPayload : DevicesPayload → Option (List Device)
  | .rawArray ds => some ds
  | .wrappedArray ds => some ds
  | .wrappedNonArray => none
  | .nonArray => none

/-- `isCacheFresh()`: `Date.now() - cacheTimestamp < cacheDuration`. -/
def isCacheFresh (st : DevState) (now : Int) : Bool :=
  now - st.cacheTimestamp < cacheDuration

/-- `getDevices(forceRefresh)`: fresh unforced cache is returned as is;
otherwise the fetch runs — success stores and returns the array, while a
network error or a non-array payload throws inside the `try`, and the
`catch` returns the (possibly stale) cached list when one exists and
rethrows the wrapped error otherwise. -/
def getDevices (st : DevState) (forceRefresh : Bool) (now : Int)
    (outcome : FetchOutcome) : Except String (List Device) × DevState :=
  let attempt : Except String (List Device) :=
    match outcome with
    | .networkError m => .error m
    | .ok p =>
      match unwrapPayload p with
      | some ds => .ok ds
      | none => .error "Invalid devices response: expected array"
  match st.devicesCache with
  | some cached =>
    if !forceRefresh && isCacheFresh st now then (.ok cached, st)
    else
      match attempt with
      | .ok ds => (.ok ds, { devicesCache := some ds, cacheTimestamp := now })
      | .error _ => (.ok cached, st)
  | none =>
    match attempt with
    | .ok ds => (.ok ds, { devicesCache := some ds, cacheTimestamp := now })
    | .error m => (.error ("Failed to fetch devices: " ++ m), st)

/-- Whether a `getDevices` result is a returned list (vs. a throw). -/
def devOk : Except String (List Device) → Bool
  | .ok _ => true
  | .error _ => false

/-- One call in a `getDevices` call sequence. -/
structure DevOp where
  forceRefresh : Bool
  now : Int
  outcome : FetchOutcome
deriving DecidableEq, Repr

/-- Run a sequence of `getDevices` calls, collecting the results. -/
def runDevOps : DevState → List DevOp → List (Except String (List Device)) × DevState
  | st, [] => ([], st)
  | st, op :: rest =>
    let r := getDevices st op.forceRefresh op.now op.outcome
    let next := runDevOps r.2 rest
    (r.1 :: next.1, next.2)

/-- A populated cache is never cleared by `getDevices`. -/
theorem getDevices_cache_preserved (st : DevState) (f : Bool) (now : Int)
    (out : FetchOutcome) (h : st.devicesCache.isSome = true) :
    ((getDevices st f now out).2).devicesCache.isSome = true := by
  unfold getDevices
  cases hc : st.devicesCache with
  | none => simp [hc] at h
  | some cached =>
    cases out with
    | networkError m => simp [h]
    | ok p => cases p <;> simp [unwrapPayload, h] <;> (try split) <;> simp [h]

/-- With a populated cache, `getDevices` always returns a list. -/
theorem getDevices_ok_of_cache (st : DevState) (f : Bool) (now : Int)
    (out : FetchOutcome) (h : st.devicesCache.isSome = true) :
    devOk (getDevices st f now out).1 = true := by
  unfold getDevices
  cases hc : st.devicesCache with
  | none => simp [hc] at h
  | some cached =>
    cases out with
    | networkError m =>
      by_cases hf : (!f && isCacheFresh st now) = true <;> simp [hf, devOk]
    | ok p =>
      cases p <;>
        by_cases hf : (!f && isCacheFresh st now) = true <;>
          simp [hf, unwrapPayload, devOk]

/-- C10: when the device fetch fails — a network error or a payload that
is not an array — and a cached list exists, `getDevices` returns the
stale cached list with the state unchanged; it throws only when no cache
exists (the wrapped fetch error); an error result implies the cache was
empty; and over any sequence of calls started with a populated cache —
hence after any successful fetch — every result is a returned list,
never a throw. -/
theorem C10_stale_cache_fallback :
    (∀ st cached f now m, st.devicesCache = some cached →
      getDevices st f now (.networkError m) = (Except.ok cached, st))
  ∧ (∀ st cached f now p, st.devicesCache = some cached →
      unwrapPayload p = none →
      getDevices st f now (.ok p) = (Except.ok cached, st))
  ∧ (∀ st f now m, st.devicesCache = none →
      getDevices st f now (.networkError m)
        = (Except.error ("Failed to fetch devices: " ++ m), st))
  ∧ (∀ st f now out e, (getDevices st f now out).1 = Except.error e →
      st.devicesCache = none)
  ∧ (∀ st ops, st.devicesCache.isSome = true →
      ∀ r ∈ (runDevOps st ops).1, devOk r = true) := by
  refine ⟨?_, ?_, ?_, ?_, ?_⟩
  · intro st cached f now m hc
    unfold getDevices
    simp [hc]
  · intro st cached f now p hc hun
    unfold getDevices
    simp [hc, hun]
  · intro st f now m hc
    unfold getDevices
    simp [hc]
  · intro st f now out e h
    cases hc : st.devicesCache with
    | none => rfl
    | some cached =>
      exfalso
      have hok := getDevices_ok_of_cache st f now out (by simp [hc])
      rw [h] at hok
      simp [devOk] at hok
  · intro st ops
    induction ops generalizing st with
    | nil => intro _ r hr; simp [runDevOps] at hr
    | cons op rest ih =>
      intro hsome r hr
      simp only [runDevOps, List.mem_cons] at hr
      rcases hr with hr | hr
      · rw [hr]
        exact getDevices_ok_of_cache st op.forceRefresh op.now op.outcome hsome
      · exact ih _ (getDevices_cache_preserved st op.forceRefresh op.now
          op.outcome hsome) r hr

/-- Witness for C10 at a concrete state and call sequence: a stale cache
survives a network error, and a populated cache keeps every later call
successful across a failing sequence. -/
theorem C10_stale_cache_fallback_witness :
    getDevices ⟨some [⟨"545ffcb0", "devTok", some "pump"⟩], 0⟩ false 400000
        (.networkError "ECONNREFUSED")
      = (Except.ok [⟨"545ffcb0", "devTok", some "pump"⟩],
         ⟨some [⟨"545ffcb0", "devTok", some "pump"⟩], 0⟩)
  ∧ ∀ r ∈ (runDevOps ⟨some [⟨"545ffcb0", "devTok", some "pump"⟩], 0⟩
      [⟨true, 500000, .networkError "timeout"⟩,
       ⟨false, 600000, .ok .nonArray⟩]).1, devOk r = true := by
  constructor
  · exact C10_stale_cache_fallback.1 _ _ false 400000 "ECONNREFUSED" rfl
  · exact C10_stale_cache_fallback.2.2.2.2 _ _ (by decide)
